import Mathlib

/-!
Shallow embedding of the dcos-e2e repository fragments under verification:
the vendored `etcdctl` wrapper, the release-version generator, the vendored
`vertigo_py` error classes, the CLI cluster-size options, and the
`dcos-docker create` / `dcos-vagrant wait` command flows.
-/

namespace DcosE2E

/-- A process environment, as a finite association list of variable
name/value pairs (embedding of `os.environ`). -/
abbrev Env := List (String × String)

/-- Embedding of `os.getenv(key, dflt)`. -/
def getenv (env : Env) (key dflt : String) : String :=
  (List.lookup key env).getD dflt

namespace Etcd

/- Embedding of `src/dcos_e2e_cli/_vendor/dcos_test_utils/etcd.py`. -/

def ETCDCTL_PATH : String := "/opt/mesosphere/bin/etcdctl"

def ETCD_ENDPOINTS : String := "127.0.0.1:2379"

def CA_CERT : String := "/run/dcos/pki/CA/ca-bundle.crt"

/-- Embedding of `is_enterprise()`:
`os.getenv('DCOS_ENTERPRISE', 'false').lower() == 'true'`. -/
def is_enterprise (env : Env) : Bool :=
  (getenv env "DCOS_ENTERPRISE" "false").toLower == "true"

/-- Embedding of `EtcdCtl._get_base_args`: `sudo` plus the etcdctl binary,
then HTTPS endpoint and TLS flags when enterprise, else the HTTP endpoint. -/
def get_base_args (env : Env) (cert_type : String) : List String :=
  let args := ["sudo", ETCDCTL_PATH]
  if is_enterprise env then
    args ++ ["--endpoints=https://" ++ ETCD_ENDPOINTS]
      ++ ["--cert=/run/dcos/pki/tls/certs/etcd-client-" ++ cert_type ++ ".crt",
          "--key=/run/dcos/pki/tls/private/etcd-client-" ++ cert_type ++ ".key",
          "--cacert=" ++ CA_CERT]
  else
    args ++ ["--endpoints=http://" ++ ETCD_ENDPOINTS]

/-- The `EtcdCtl` wrapper: its only state is `_base_args`, computed once in
`__init__`. -/
structure EtcdCtl where
  base_args : List String
deriving DecidableEq

/-- Embedding of `EtcdCtl.__init__` (default `cert_type="root"` is passed
explicitly by callers of this model). -/
def EtcdCtl.init (env : Env) (cert_type : String) : EtcdCtl :=
  ⟨get_base_args env cert_type⟩

/-- Embedding of `subprocess.CompletedProcess` with captured streams:
`args`, `returncode`, `stdout`, `stderr` (streams as byte lists). -/
structure CompletedProcess where
  args : List String
  returncode : Int
  stdout : List Nat
  stderr : List Nat
deriving DecidableEq

/-- Outcome of `subprocess.run`: either the completed process is returned,
or (when `check` is set and the exit code is nonzero)
`subprocess.CalledProcessError` is raised. -/
inductive RunOutcome
  | completed (p : CompletedProcess)
  | calledProcessError (p : CompletedProcess)
deriving DecidableEq

/-- Whether the outcome is a normal return (no exception). -/
def RunOutcome.isCompleted : RunOutcome → Bool
  | .completed _ => true
  | .calledProcessError _ => false

/-- Embedding of `subprocess.run(argv, stdout=PIPE, stderr=PIPE, check=check)`.
The host system is abstracted as `exec`, mapping an argument vector to
(exit code, stdout bytes, stderr bytes). With `check` set, a nonzero exit
code raises `CalledProcessError` instead of returning. -/
def subprocessRun (exec : List String → Int × List Nat × List Nat)
    (argv : List String) (check : Bool) : RunOutcome :=
  let r := exec argv
  let p : CompletedProcess := ⟨argv, r.1, r.2.1, r.2.2⟩
  if check = true ∧ p.returncode ≠ 0 then .calledProcessError p else .completed p

/-- The argument vector `EtcdCtl.run` hands to `subprocess.run`:
`self._base_args.copy() + cmd`. -/
def EtcdCtl.runArgv (ctl : EtcdCtl) (cmd : List String) : List String :=
  ctl.base_args ++ cmd

/-- Embedding of `EtcdCtl.run(cmd, check)`.  In the source `check`
defaults to `True`; this model passes it explicitly. -/
def EtcdCtl.run (ctl : EtcdCtl) (exec : List String → Int × List Nat × List Nat)
    (cmd : List String) (check : Bool) : RunOutcome :=
  subprocessRun exec (ctl.runArgv cmd) check

end Etcd

namespace PrepareRelease

/- Embedding of `admin/prepare_release.py` (`get_version`). -/

/-- A UTC calendar date (`datetime.datetime.utcnow()` restricted to the
fields `strftime('%Y.%m.%d')` reads). -/
structure DateUTC where
  year : Nat
  month : Nat
  day : Nat
deriving DecidableEq

/-- Zero-pad a numeral to two digits (`%m`, `%d`). -/
def pad2 (n : Nat) : String :=
  if n < 10 then "0" ++ toString n else toString n

/-- Zero-pad a numeral to four digits (`%Y`). -/
def pad4 (n : Nat) : String :=
  if n < 10 then "000" ++ toString n
  else if n < 100 then "00" ++ toString n
  else if n < 1000 then "0" ++ toString n
  else toString n

/-- Embedding of `utc_now.strftime('%Y.%m.%d')`. -/
def strftimeYmd (d : DateUTC) : String :=
  pad4 d.year ++ "." ++ pad2 d.month ++ "." ++ pad2 d.day

/-- Embedding of Python's `item.startswith(date_str)`: the characters of
`date_str` lead the characters of `item`. -/
def startswith (item date_str : String) : Bool :=
  List.isPrefixOf date_str.data item.data

/-- Embedding of `get_version`: today's date string, then `.`, then the
number of existing tag labels starting with that date string. -/
def get_version (utc_now : DateUTC) (tag_labels : List String) : String :=
  let date_str := strftimeYmd utc_now
  let today_tag_labels := tag_labels.filter (fun item => startswith item date_str)
  let micro := today_tag_labels.length
  date_str ++ "." ++ toString micro

end PrepareRelease

namespace VertigoError

/- Embedding of `src/dcos_e2e/_vendor/vertigo_py/error.py`. -/

/-- The result of evaluating a Python expression that may raise `NameError`. -/
inductive PyStrResult
  | ok (s : String)
  | nameError (missing : String)
deriving DecidableEq

/-- One fragment of an f-string: a literal piece, or a bare name to be
resolved against the enclosing scope. -/
inductive Fragment
  | lit (s : String)
  | name (n : String)

/-- Resolve a bare name against a scope (association list of bound names).
Python raises `NameError` when the name is absent; here that is `none`. -/
def resolveName (scope : List (String × String)) (n : String) : Option String :=
  List.lookup n scope

/-- Evaluate f-string fragments left to right; the first unresolvable bare
name aborts evaluation with a `NameError`, as in Python. -/
def evalFragments (scope : List (String × String)) : List Fragment → PyStrResult
  | [] => .ok ""
  | .lit s :: rest =>
      match evalFragments scope rest with
      | .ok t => .ok (s ++ t)
      | e => e
  | .name n :: rest =>
      match resolveName scope n with
      | none => .nameError n
      | some v =>
          match evalFragments scope rest with
          | .ok t => .ok (v ++ t)
          | e => e

/-- The `RegistrationError` instance state set by `__init__`:
`self.filename = filename`, `self.code = str(error.returncode)`,
`self.msg = error.output`. -/
structure RegistrationError where
  filename : String
  code : String
  msg : String
deriving DecidableEq

/-- Embedding of `RegistrationError.__init__(filename, error)` for an error
object carrying `returncode` and `output`. -/
def RegistrationError.init (filename : String) (error_returncode : Int)
    (error_output : String) : RegistrationError :=
  ⟨filename, toString error_returncode, error_output⟩

/-- The local scope of a method body whose only parameter is `self`:
attributes are reachable through `self.<attr>`, but no bare name other
than `self`'s attribute paths is bound. -/
def methodScope (e : RegistrationError) : List (String × String) :=
  [("self.filename", e.filename), ("self.code", e.code), ("self.msg", e.msg)]

/-- Embedding of `RegistrationError.__str__`: the first f-string
interpolates the bare name `filename` (not `self.filename`), then the
message built from `self.msg` is appended. -/
def RegistrationError.strMethod (e : RegistrationError) : PyStrResult :=
  evalFragments (methodScope e)
    [.lit "Unable to register VM from file ", .name "filename", .lit "\n",
     .lit "Returned message was:\n", .name "self.msg"]

/-- The `CommandError` instance state set by `__init__`. -/
structure CommandError where
  cmd : String
  code : String
  msg : String
deriving DecidableEq

/-- The method scope for `CommandError.__str__`. -/
def cmdMethodScope (e : CommandError) : List (String × String) :=
  [("self.cmd", e.cmd), ("self.code", e.code), ("self.msg", e.msg)]

/-- Embedding of `CommandError.__str__`, which reads only `self` attributes
and therefore always returns a string. -/
def CommandError.strMethod (e : CommandError) : PyStrResult :=
  evalFragments (cmdMethodScope e)
    [.lit "Command ", .name "self.cmd", .lit " failed with code ",
     .name "self.code", .lit " and message:\n", .name "self.msg"]

end VertigoError

namespace ClusterSize

/- Embedding of `src/dcos_e2e_cli/common/options/cluster_size.py`. -/

/-- A `click.option` of type `click.INT` with a default: the full extent of
the declaration in `cluster_size.py` (no bounds are declared there; the
type is `click.INT`, not an `IntRange`). -/
structure IntOption where
  name : String
  dflt : Int
deriving DecidableEq

/-- Embedding of `masters_option`: `click.option('--masters',
type=click.INT, default=1, ...)`. -/
def masters_option : IntOption := ⟨"--masters", 1⟩

/-- Embedding of `agents_option`. -/
def agents_option : IntOption := ⟨"--agents", 1⟩

/-- Embedding of `public_agents_option`. -/
def public_agents_option : IntOption := ⟨"--public-agents", 1⟩

/-- Parse a run of decimal digits (at least one). -/
def parseNatDigits (cs : List Char) : Option Nat :=
  if cs.isEmpty then none
  else
    cs.foldl
      (fun acc c =>
        match acc with
        | none => none
        | some n => if c.isDigit then some (n * 10 + (c.toNat - 48)) else none)
      (some 0)

/-- Embedding of the `click.INT` parameter type's conversion, Python's
`int(token)`: an optional sign followed by digits; no range restriction. -/
def clickINT (token : String) : Option Int :=
  match token.data with
  | '-' :: rest => (parseNatDigits rest).map (fun n => -(n : Int))
  | '+' :: rest => (parseNatDigits rest).map (fun n => (n : Int))
  | cs => (parseNatDigits cs).map (fun n => (n : Int))

/-- What the option layer yields for a command parameter: the declared
default when the flag is absent, otherwise the `click.INT` conversion of
the given token.  `none` means the token was rejected. -/
def processOption (opt : IntOption) (given : Option String) : Option Int :=
  match given with
  | none => some opt.dflt
  | some tok => clickINT tok

end ClusterSize

namespace DockerCreate

/- Embedding of `src/dcos_e2e_cli/dcos_docker/commands/create.py`. -/

/-- Modelled from the spec: the label key constants live in the Docker CLI
module `_common.py`, which is not among the available sources; only their
identity as three distinct keys is used. -/
def CLUSTER_ID_LABEL_KEY : String := "dcos_e2e.cluster_id"

/-- Modelled from the spec: see `CLUSTER_ID_LABEL_KEY`. -/
def WORKSPACE_DIR_LABEL_KEY : String := "dcos_e2e.workspace_dir"

/-- Modelled from the spec: see `CLUSTER_ID_LABEL_KEY`. -/
def NODE_TYPE_LABEL_KEY : String := "dcos_e2e.node_type"

/-- Modelled from the spec: the role label values; only their distinctness
per role is used. -/
def NODE_TYPE_MASTER_LABEL_VALUE : String := "master"

/-- Modelled from the spec: see `NODE_TYPE_MASTER_LABEL_VALUE`. -/
def NODE_TYPE_AGENT_LABEL_VALUE : String := "agent"

/-- Modelled from the spec: see `NODE_TYPE_MASTER_LABEL_VALUE`. -/
def NODE_TYPE_PUBLIC_AGENT_LABEL_VALUE : String := "public_agent"

/-- A node role (spec §3 `NodeRole`). -/
inductive NodeRole
  | master
  | agent
  | publicAgent
deriving DecidableEq

/-- The role label value attached for each role in `create.py`. -/
def nodeTypeLabelValue : NodeRole → String
  | .master => NODE_TYPE_MASTER_LABEL_VALUE
  | .agent => NODE_TYPE_AGENT_LABEL_VALUE
  | .publicAgent => NODE_TYPE_PUBLIC_AGENT_LABEL_VALUE

/-- The label configuration `create` passes to the `Docker` backend
constructor (create.py lines 203-228). -/
structure DockerBackendLabels where
  docker_container_labels : List (String × String)
  docker_master_labels : List (String × String)
  docker_agent_labels : List (String × String)
  docker_public_agent_labels : List (String × String)
deriving DecidableEq

/-- Embedding of the label arguments of the `Docker(...)` construction in
`create`: cluster id and workspace dir on every container, a role label
per role. -/
def createBackendLabels (cluster_id workspace_dir : String) : DockerBackendLabels :=
  { docker_container_labels :=
      [(CLUSTER_ID_LABEL_KEY, cluster_id),
       (WORKSPACE_DIR_LABEL_KEY, workspace_dir)],
    docker_master_labels :=
      [(NODE_TYPE_LABEL_KEY, NODE_TYPE_MASTER_LABEL_VALUE)],
    docker_agent_labels :=
      [(NODE_TYPE_LABEL_KEY, NODE_TYPE_AGENT_LABEL_VALUE)],
    docker_public_agent_labels :=
      [(NODE_TYPE_LABEL_KEY, NODE_TYPE_PUBLIC_AGENT_LABEL_VALUE)] }

/-- Modelled from the spec: the Docker backend provisioner (package
`dcos_e2e.backends`, not among the available sources) labels every
container it allocates with `docker_container_labels` plus the label set
for the container's role — "tags every allocated resource with
cluster-id, role and workspace-path". -/
def provisionContainerLabels (labels : DockerBackendLabels) (role : NodeRole) :
    List (String × String) :=
  labels.docker_container_labels ++
    (match role with
     | .master => labels.docker_master_labels
     | .agent => labels.docker_agent_labels
     | .publicAgent => labels.docker_public_agent_labels)

/-- The errors the `create` command can abort with in this model. -/
inductive CreateError
  | clusterIdAlreadyExists
deriving DecidableEq

/-- Modelled from the spec: `check_cluster_id_unique` (from
`dcos_e2e_cli/common/utils.py`, not among the available sources) aborts
creation when the requested id is already among the enumerated existing
cluster ids. -/
def check_cluster_id_unique (new_cluster_id : String)
    (existing_cluster_ids : List String) : Except CreateError Unit :=
  if new_cluster_id ∈ existing_cluster_ids then .error .clusterIdAlreadyExists
  else .ok ()

/-- The observable steps of the `create` command body, in program order. -/
inductive CreateEvent
  | enumerateExistingIds
  | checkClusterIdUnique
  | writeKeyPair
  | buildBackend
  | createClusterNodes
  | addAuthorizedKey
  | sendFileToMaster (master : Nat) (localPath remotePath : String)
  | getConfig
  | installDcosFromPath
  | runPostInstallSteps
deriving DecidableEq

/-- Whether an event is one of the `send_file` transfers of the
copy-to-master loop. -/
def CreateEvent.isSendFile : CreateEvent → Bool
  | .sendFileToMaster _ _ _ => true
  | _ => false

/-- The `send_file` events of the nested loop `for node in cluster.masters:
for path_pair in copy_to_master: node.send_file(...)`. -/
def copyToMasterEvents (masters : Nat) (copy_to_master : List (String × String)) :
    List CreateEvent :=
  (List.range masters).flatMap
    (fun m => copy_to_master.map
      (fun p => CreateEvent.sendFileToMaster m p.1 p.2))

/-- The steps `create` performs after the uniqueness check passes, in the
order of the function body (create.py lines 178-278). -/
def createBodyEvents (masters : Nat) (copy_to_master : List (String × String)) :
    List CreateEvent :=
  [CreateEvent.writeKeyPair, CreateEvent.buildBackend,
   CreateEvent.createClusterNodes, CreateEvent.addAuthorizedKey]
    ++ copyToMasterEvents masters copy_to_master
    ++ [CreateEvent.getConfig, CreateEvent.installDcosFromPath,
        CreateEvent.runPostInstallSteps]

/-- Embedding of the `create` command: it first enumerates the existing
cluster ids and checks the requested id against that snapshot
(`check_cluster_id_unique(new_cluster_id=cluster_id,
existing_cluster_ids=existing_cluster_ids())`); only when the check passes
does the body — provisioning included — run.  Returns the trace of
performed steps and the outcome. -/
def create (existing : List String) (cluster_id : String) (masters : Nat)
    (copy_to_master : List (String × String)) :
    List CreateEvent × Except CreateError Unit :=
  match check_cluster_id_unique cluster_id existing with
  | .error e =>
      ([CreateEvent.enumerateExistingIds, CreateEvent.checkClusterIdUnique],
       .error e)
  | .ok _ =>
      (CreateEvent.enumerateExistingIds :: CreateEvent.checkClusterIdUnique ::
        createBodyEvents masters copy_to_master,
       .ok ())

/-- The labels carried by a container of the given role in a cluster
created by the `create` command: the backend label configuration built in
`create`, applied by the provisioner. -/
def createNodeLabels (cluster_id workspace_dir : String) (role : NodeRole) :
    List (String × String) :=
  provisionContainerLabels (createBackendLabels cluster_id workspace_dir) role

/-- The part of the `create` trace preceding configuration generation:
everything up to and including the copy-to-master transfers. -/
def createPrefixPart (masters : Nat) (copy_to_master : List (String × String)) :
    List CreateEvent :=
  [CreateEvent.enumerateExistingIds, CreateEvent.checkClusterIdUnique,
   CreateEvent.writeKeyPair, CreateEvent.buildBackend,
   CreateEvent.createClusterNodes, CreateEvent.addAuthorizedKey]
    ++ copyToMasterEvents masters copy_to_master

/-- The tail of the `create` trace: configuration generation, the single
installer invocation, and the post-install steps. -/
def createSuffixPart : List CreateEvent :=
  [CreateEvent.getConfig, CreateEvent.installDcosFromPath,
   CreateEvent.runPostInstallSteps]

/-- Two `create` requests for the same id that both read the same
enumeration snapshot before either allocates: the source has no lock
around the query-then-act sequence, so each request's outcome depends only
on the shared snapshot. -/
def concurrentCreateOutcomes (existing : List String) (cluster_id : String)
    (masters : Nat) (copy_to_master : List (String × String)) :
    Except CreateError Unit × Except CreateError Unit :=
  ((create existing cluster_id masters copy_to_master).2,
   (create existing cluster_id masters copy_to_master).2)

end DockerCreate

namespace VagrantWait

/- Embedding of `src/dcos_e2e_cli/dcos_vagrant/commands/wait.py`. -/

/-- The errors the `wait` command can abort with in this model. -/
inductive WaitError
  | clusterIdDoesNotExist
deriving DecidableEq

/-- Modelled from the spec: `check_cluster_id_exists` (from
`dcos_e2e_cli/common/utils.py`, not among the available sources) aborts
when the given id is not among the enumerated existing cluster ids. -/
def check_cluster_id_exists (new_cluster_id : String)
    (existing_cluster_ids : List String) : Except WaitError Unit :=
  if new_cluster_id ∈ existing_cluster_ids then .ok ()
  else .error .clusterIdDoesNotExist

/-- The cluster handle `ClusterVMs(cluster_id=cluster_id)`: its
constructor takes the id and nothing else. -/
structure ClusterVMs where
  cluster_id : String
deriving DecidableEq

/-- The observable steps of the `wait` command body, in program order. -/
inductive WaitEvent
  | enumerateExistingIds
  | checkClusterIdExists
  | constructClusterVMs (cluster_id : String)
  | waitForDcos (cluster_id : String)
deriving DecidableEq

/-- Embedding of the `wait` command: enumerate the existing ids, check the
given id against that snapshot, and only then reconstruct the handle from
the id alone and enter the readiness wait. -/
def wait (existing : List String) (cluster_id : String) :
    List WaitEvent × Except WaitError Unit :=
  match check_cluster_id_exists cluster_id existing with
  | .error e =>
      ([WaitEvent.enumerateExistingIds, WaitEvent.checkClusterIdExists],
       .error e)
  | .ok _ =>
      let cluster_vms : ClusterVMs := ⟨cluster_id⟩
      ([WaitEvent.enumerateExistingIds, WaitEvent.checkClusterIdExists,
        WaitEvent.constructClusterVMs cluster_vms.cluster_id,
        WaitEvent.waitForDcos cluster_vms.cluster_id],
       .ok ())

end VagrantWait

namespace Doctor

/- Modelled from the spec: the doctor command implementation is not among
the available sources (only the test `test_cli.py::TestDoctor.test_doctor`,
which asserts exit code 0 and no exception).  Spec §4.5: each check never
raises; it always produces a Pass/Warn/Fail verdict plus a remediation
hint, aggregated into a report. -/

/-- A doctor verdict. -/
inductive Verdict
  | pass
  | warn
  | fail
deriving DecidableEq

/-- One entry of the doctor report. -/
structure CheckEntry where
  name : String
  verdict : Verdict
  detail : String
deriving DecidableEq

/-- A diagnostic check: a name and a probe of the environment.  The probe
may fail internally (an exception in the underlying tooling), modelled as
`Except`. -/
structure DoctorCheck where
  name : String
  probe : Env → Except String (Verdict × String)

/-- Modelled from the spec: run one check; an internal probe error is
captured as a Fail entry carrying the message, never re-raised. -/
def runCheck (env : Env) (c : DoctorCheck) : CheckEntry :=
  match c.probe env with
  | .ok (v, detail) => ⟨c.name, v, detail⟩
  | .error msg => ⟨c.name, Verdict.fail, msg⟩

/-- Modelled from the spec: the doctor command runs the fixed ordered
battery of checks over the environment, aggregates the entries into a
report, and completes with exit code 0. -/
def doctorCommand (checks : List DoctorCheck) (env : Env) :
    List CheckEntry × Nat :=
  (checks.map (runCheck env), 0)

end Doctor

/-- A host system on which every command exits 1 with captured output. -/
def execFail : List String → Int × List Nat × List Nat := fun _ => (1, [107], [101])

/-- A host system on which every command exits 0 with empty output. -/
def execOk : List String → Int × List Nat × List Nat := fun _ => (0, [], [])

/-! Theorems settling the claims. -/

/-- C10: the release-version generator is deterministic in the tag state and
the current UTC date: when the tag list contains exactly `N` tags whose
labels start with today's date formatted `YYYY.MM.DD`, `get_version`
returns that date string followed by `.` and `N`. -/
theorem C10_get_version_counts_same_day_tags (d : PrepareRelease.DateUTC)
    (tags : List String) (N : Nat)
    (h : (tags.filter
        (fun item =>
          PrepareRelease.startswith item (PrepareRelease.strftimeYmd d))).length
      = N) :
    PrepareRelease.get_version d tags
      = PrepareRelease.strftimeYmd d ++ "." ++ toString N := by
  rw [show PrepareRelease.get_version d tags
      = PrepareRelease.strftimeYmd d ++ "." ++ toString
          (tags.filter
            (fun item =>
              PrepareRelease.startswith item
                (PrepareRelease.strftimeYmd d))).length
      from rfl, h]

/-- Witness for C10 at a concrete date and tag list: one same-day tag
exists already, so the generated version ends in `.1`. -/
theorem C10_get_version_witness :
    PrepareRelease.get_version ⟨2026, 10, 12⟩ ["2026.10.12.0", "2025.01.01.0"]
      = PrepareRelease.strftimeYmd ⟨2026, 10, 12⟩ ++ "." ++ toString 1 :=
  C10_get_version_counts_same_day_tags ⟨2026, 10, 12⟩
    ["2026.10.12.0", "2025.01.01.0"] 1 (by decide)

/-- C9: for every `RegistrationError` built by `__init__` from a filename
and an error object, `__str__` raises `NameError` because it references the
unbound bare name `filename` instead of `self.filename`. -/
theorem C9_registration_error_str_raises (filename : String) (rc : Int)
    (output : String) :
    (VertigoError.RegistrationError.init filename rc output).strMethod
      = VertigoError.PyStrResult.nameError "filename" := rfl

/-- C8: every command run through `EtcdCtl` executes with the base argument
vector computed once at construction — beginning with `sudo` and the
etcdctl path, HTTPS endpoint and TLS flags present iff `DCOS_ENTERPRISE`
is `'true'` case-insensitively — followed by the command. -/
theorem C8_etcdctl_elevated_fixed_prefix (env : Env) (cert_type : String)
    (cmd : List String) :
    ((Etcd.EtcdCtl.init env cert_type).runArgv cmd
        = Etcd.get_base_args env cert_type ++ cmd)
    ∧ ((Etcd.get_base_args env cert_type).take 2 = ["sudo", Etcd.ETCDCTL_PATH])
    ∧ ((("--endpoints=https://" ++ Etcd.ETCD_ENDPOINTS)
          ∈ Etcd.get_base_args env cert_type)
        ↔ Etcd.is_enterprise env = true)
    ∧ ((("--cacert=" ++ Etcd.CA_CERT) ∈ Etcd.get_base_args env cert_type)
        ↔ Etcd.is_enterprise env = true)
    ∧ (Etcd.is_enterprise env
        = ((getenv env "DCOS_ENTERPRISE" "false").toLower == "true")) := by
  refine ⟨rfl, ?_, ?_, ?_, rfl⟩ <;>
    cases h : Etcd.is_enterprise env <;>
      simp [Etcd.get_base_args, h] <;> decide

/-- C3 counterexample: with the source's default `check=True`, a command
that exits nonzero makes `EtcdCtl.run` raise `CalledProcessError` instead
of returning the completed process, so the result is not returned verbatim
regardless of the exit code. -/
theorem C3_run_default_check_raises_on_nonzero_exit :
    (Etcd.EtcdCtl.run (Etcd.EtcdCtl.init [] "root") execFail
        ["member", "list"] true).isCompleted = false := rfl

/-- C3 as amended: `EtcdCtl.run` returns the completed process — exit
code, stdout bytes and stderr bytes exactly as produced, with the executed
argument vector — whenever `check` is false or the exit code is zero; with
the default `check=True` a nonzero exit raises instead. -/
theorem C3_run_returns_result_verbatim_unless_checked (ctl : Etcd.EtcdCtl)
    (exec : List String → Int × List Nat × List Nat) (cmd : List String)
    (check : Bool)
    (h : check = false ∨ (exec (ctl.runArgv cmd)).1 = 0) :
    Etcd.EtcdCtl.run ctl exec cmd check
      = Etcd.RunOutcome.completed
          ⟨ctl.runArgv cmd, (exec (ctl.runArgv cmd)).1,
           (exec (ctl.runArgv cmd)).2.1, (exec (ctl.runArgv cmd)).2.2⟩ := by
  rcases h with h | h
  · subst h
    simp [Etcd.EtcdCtl.run, Etcd.subprocessRun]
  · simp [Etcd.EtcdCtl.run, Etcd.subprocessRun, h]

/-- Witness for the amended C3 at a concrete wrapper, host and command. -/
theorem C3_run_returns_result_verbatim_witness :
    Etcd.EtcdCtl.run (Etcd.EtcdCtl.init [] "root") execOk ["get", "k"] true
      = Etcd.RunOutcome.completed
          ⟨(Etcd.EtcdCtl.init [] "root").runArgv ["get", "k"],
           (execOk ((Etcd.EtcdCtl.init [] "root").runArgv ["get", "k"])).1,
           (execOk ((Etcd.EtcdCtl.init [] "root").runArgv ["get", "k"])).2.1,
           (execOk ((Etcd.EtcdCtl.init [] "root").runArgv ["get", "k"])).2.2⟩ :=
  C3_run_returns_result_verbatim_unless_checked (Etcd.EtcdCtl.init [] "root")
    execOk ["get", "k"] true (Or.inr rfl)

/-- C5 counterexample: the masters option accepts the token `0` — the
conversion yields the value 0 rather than a rejection — so a masters count
below 1 is not rejected by the CLI option layer. -/
theorem C5_masters_option_accepts_zero :
    ClusterSize.processOption ClusterSize.masters_option (some "0") = some 0
    ∧ ClusterSize.processOption ClusterSize.masters_option (some "0") ≠ none := by
  exact ⟨rfl, by decide⟩

/-- C5 as amended: the CLI option layer admits the masters count with
default 1 but enforces no lower bound: counts of 0 and even negative
counts convert successfully, and the create flow itself proceeds to
provisioning with a masters count of 0. -/
theorem C5_masters_option_unbounded :
    ClusterSize.processOption ClusterSize.masters_option none = some 1
    ∧ ClusterSize.processOption ClusterSize.masters_option (some "0") = some 0
    ∧ ClusterSize.processOption ClusterSize.masters_option (some "-3")
        = some (-3)
    ∧ (DockerCreate.create [] "default" 0 []).2 = Except.ok ()
    ∧ DockerCreate.CreateEvent.createClusterNodes
        ∈ (DockerCreate.create [] "default" 0 []).1 := by
  refine ⟨rfl, rfl, rfl, rfl, by decide⟩

/-- C6: the doctor command never lets a check raise: for every battery of
checks and every environment it completes with exit code 0, and every
check contributes exactly one verdict entry to the report, in order. -/
theorem C6_doctor_never_raises (checks : List Doctor.DoctorCheck) (env : Env) :
    (Doctor.doctorCommand checks env).2 = 0
    ∧ ((Doctor.doctorCommand checks env).1.map Doctor.CheckEntry.name
        = checks.map Doctor.DoctorCheck.name)
    ∧ (Doctor.doctorCommand checks env).1.length = checks.length := by
  refine ⟨rfl, ?_, by simp [Doctor.doctorCommand]⟩
  simp only [Doctor.doctorCommand, List.map_map]
  apply List.map_congr_left
  intro c _
  simp only [Function.comp_apply, Doctor.runCheck]
  cases hp : c.probe env with
  | ok p => obtain ⟨v, detail⟩ := p; rfl
  | error msg => rfl

/-- C7: the wait command resolves the cluster purely from its id by a live
query: the id is checked against the freshly enumerated existing ids
before any waiting, an id not enumerable fails before polling starts, and
an enumerable id yields a handle reconstructed from the id alone followed
by the readiness wait. -/
theorem C7_wait_resolves_from_live_metadata (existing : List String)
    (cluster_id : String) :
    (cluster_id ∉ existing →
      VagrantWait.wait existing cluster_id
        = ([VagrantWait.WaitEvent.enumerateExistingIds,
            VagrantWait.WaitEvent.checkClusterIdExists],
           Except.error VagrantWait.WaitError.clusterIdDoesNotExist))
    ∧ (cluster_id ∈ existing →
      VagrantWait.wait existing cluster_id
        = ([VagrantWait.WaitEvent.enumerateExistingIds,
            VagrantWait.WaitEvent.checkClusterIdExists,
            VagrantWait.WaitEvent.constructClusterVMs cluster_id,
            VagrantWait.WaitEvent.waitForDcos cluster_id],
           Except.ok ())) := by
  constructor <;> intro h <;>
    simp [VagrantWait.wait, VagrantWait.check_cluster_id_exists, h]

/-- Witness for C7 at concrete inputs: an id absent from the enumeration
fails before any polling event is emitted. -/
theorem C7_wait_witness :
    VagrantWait.wait ["a"] "b"
      = ([VagrantWait.WaitEvent.enumerateExistingIds,
          VagrantWait.WaitEvent.checkClusterIdExists],
         Except.error VagrantWait.WaitError.clusterIdDoesNotExist) :=
  (C7_wait_resolves_from_live_metadata ["a"] "b").1 (by decide)

/-- C2: the create command checks the requested id against the live
enumeration before any provisioning — the enumeration and the check are
the first two steps, an already-enumerable id aborts with no allocation
event, and the check is query-then-act on a snapshot with no lock: two
requests reading the same snapshot both proceed. -/
theorem C2_uniqueness_checked_before_provisioning (existing : List String)
    (cluster_id : String) (masters : Nat) (pairs : List (String × String)) :
    ((DockerCreate.create existing cluster_id masters pairs).1.take 2
        = [DockerCreate.CreateEvent.enumerateExistingIds,
           DockerCreate.CreateEvent.checkClusterIdUnique])
    ∧ (cluster_id ∈ existing →
        (DockerCreate.create existing cluster_id masters pairs).2
            = Except.error DockerCreate.CreateError.clusterIdAlreadyExists
          ∧ DockerCreate.CreateEvent.createClusterNodes
              ∉ (DockerCreate.create existing cluster_id masters pairs).1)
    ∧ (cluster_id ∉ existing →
        (DockerCreate.create existing cluster_id masters pairs).1
            = DockerCreate.CreateEvent.enumerateExistingIds ::
                DockerCreate.CreateEvent.checkClusterIdUnique ::
                DockerCreate.createBodyEvents masters pairs
          ∧ DockerCreate.CreateEvent.createClusterNodes
              ∈ DockerCreate.createBodyEvents masters pairs
          ∧ DockerCreate.concurrentCreateOutcomes existing cluster_id masters
                pairs
              = (Except.ok (), Except.ok ())) := by
  refine ⟨?_, ?_, ?_⟩
  · by_cases h : cluster_id ∈ existing <;>
      simp [DockerCreate.create, DockerCreate.check_cluster_id_unique, h]
  · intro h
    constructor <;>
      simp [DockerCreate.create, DockerCreate.check_cluster_id_unique, h,
        DockerCreate.createBodyEvents, DockerCreate.copyToMasterEvents]
  · intro h
    refine ⟨?_, ?_, ?_⟩ <;>
      simp [DockerCreate.create, DockerCreate.check_cluster_id_unique, h,
        DockerCreate.createBodyEvents, DockerCreate.concurrentCreateOutcomes]

/-- Witness for C2 at concrete inputs: a request whose id is already
enumerable is rejected. -/
theorem C2_uniqueness_witness :
    (DockerCreate.create ["x"] "x" 1 []).2
      = Except.error DockerCreate.CreateError.clusterIdAlreadyExists :=
  ((C2_uniqueness_checked_before_provisioning ["x"] "x" 1 []).2.1
    (by decide)).1

/-- C1: every container of a cluster created by the Docker-backend create
operation carries the cluster id under `CLUSTER_ID_LABEL_KEY`, the
workspace directory under `WORKSPACE_DIR_LABEL_KEY`, and the role label
under `NODE_TYPE_LABEL_KEY` mapped to the master, agent or public-agent
value according to its role. -/
theorem C1_created_containers_carry_recovery_labels
    (cluster_id workspace_dir : String) (role : DockerCreate.NodeRole) :
    (List.lookup DockerCreate.CLUSTER_ID_LABEL_KEY
        (DockerCreate.createNodeLabels cluster_id workspace_dir role)
      = some cluster_id)
    ∧ (List.lookup DockerCreate.WORKSPACE_DIR_LABEL_KEY
        (DockerCreate.createNodeLabels cluster_id workspace_dir role)
      = some workspace_dir)
    ∧ (List.lookup DockerCreate.NODE_TYPE_LABEL_KEY
        (DockerCreate.createNodeLabels cluster_id workspace_dir role)
      = some (DockerCreate.nodeTypeLabelValue role)) := by
  cases role <;> exact ⟨rfl, rfl, rfl⟩

/-- When the requested id is not enumerable, the `create` trace splits into
the part up to the copy-to-master transfers and the
config/install/post-install tail. -/
theorem create_trace_parts (existing : List String) (cluster_id : String)
    (masters : Nat) (pairs : List (String × String))
    (h : cluster_id ∉ existing) :
    (DockerCreate.create existing cluster_id masters pairs).1
      = DockerCreate.createPrefixPart masters pairs
          ++ DockerCreate.createSuffixPart := by
  simp [DockerCreate.create, DockerCreate.check_cluster_id_unique, h,
    DockerCreate.createBodyEvents, DockerCreate.createPrefixPart,
    DockerCreate.createSuffixPart]

/-- The installer invocation does not occur before configuration
generation: it is absent from the prefix part of the trace. -/
theorem install_not_mem_createPrefixPart (masters : Nat)
    (pairs : List (String × String)) :
    DockerCreate.CreateEvent.installDcosFromPath
      ∉ DockerCreate.createPrefixPart masters pairs := by
  intro h
  simp [DockerCreate.createPrefixPart, DockerCreate.copyToMasterEvents] at h

/-- C4: in the install phase of `create`, every copy-to-master transfer
precedes the installer invocation, the installer is invoked exactly once,
and the step immediately before it is configuration generation. -/
theorem C4_copy_before_invoke (existing : List String) (cluster_id : String)
    (masters : Nat) (pairs : List (String × String))
    (hid : cluster_id ∉ existing) :
    ((DockerCreate.create existing cluster_id masters pairs).1.count
        DockerCreate.CreateEvent.installDcosFromPath = 1)
    ∧ (∀ i j : Nat, ∀ e : DockerCreate.CreateEvent,
        (DockerCreate.create existing cluster_id masters pairs).1[i]? = some e →
        e.isSendFile = true →
        (DockerCreate.create existing cluster_id masters pairs).1[j]?
            = some DockerCreate.CreateEvent.installDcosFromPath →
        i < j)
    ∧ (∀ j : Nat,
        (DockerCreate.create existing cluster_id masters pairs).1[j]?
            = some DockerCreate.CreateEvent.installDcosFromPath →
        (DockerCreate.create existing cluster_id masters pairs).1[j - 1]?
            = some DockerCreate.CreateEvent.getConfig) := by
  have htr := create_trace_parts existing cluster_id masters pairs hid
  refine ⟨?_, ?_, ?_⟩
  · rw [htr, List.count_append,
      List.count_eq_zero_of_not_mem (install_not_mem_createPrefixPart masters pairs)]
    decide
  · intro i j e hi hsend hj
    rw [htr] at hi hj
    have hjge : (DockerCreate.createPrefixPart masters pairs).length ≤ j := by
      by_contra hlt
      push_neg at hlt
      rw [List.getElem?_append_left hlt] at hj
      exact install_not_mem_createPrefixPart masters pairs (List.getElem?_mem hj)
    have hilt : i < (DockerCreate.createPrefixPart masters pairs).length := by
      by_contra hge
      push_neg at hge
      rw [List.getElem?_append_right hge] at hi
      have hmem : e ∈ DockerCreate.createSuffixPart := List.getElem?_mem hi
      simp [DockerCreate.createSuffixPart] at hmem
      rcases hmem with rfl | rfl | rfl <;>
        simp [DockerCreate.CreateEvent.isSendFile] at hsend
    omega
  · intro j hj
    rw [htr] at hj ⊢
    have hjge : (DockerCreate.createPrefixPart masters pairs).length ≤ j := by
      by_contra hlt
      push_neg at hlt
      rw [List.getElem?_append_left hlt] at hj
      exact install_not_mem_createPrefixPart masters pairs (List.getElem?_mem hj)
    rw [List.getElem?_append_right hjge] at hj
    have hk : j - (DockerCreate.createPrefixPart masters pairs).length = 1 := by
      rcases hcase : j - (DockerCreate.createPrefixPart masters pairs).length
        with _ | k
      · rw [hcase] at hj
        simp [DockerCreate.createSuffixPart] at hj
      · rcases k with _ | k
        · rfl
        · rw [hcase] at hj
          rcases k with _ | k <;>
            simp [DockerCreate.createSuffixPart] at hj
    have hj1 : j = (DockerCreate.createPrefixPart masters pairs).length + 1 := by
      omega
    have hj1' : j - 1 = (DockerCreate.createPrefixPart masters pairs).length := by
      omega
    rw [hj1', List.getElem?_append_right (Nat.le_refl _)]
    simp [DockerCreate.createSuffixPart]

/-- Witness for C4 at concrete inputs: the installer invocation appears
exactly once in the trace. -/
theorem C4_copy_before_invoke_witness :
    (DockerCreate.create [] "c" 1 [("a", "b")]).1.count
        DockerCreate.CreateEvent.installDcosFromPath = 1 :=
  (C4_copy_before_invoke [] "c" 1 [("a", "b")] (by decide)).1

end DcosE2E
